import Mathlib

/-!
Verification of the voice-assistant audio pipeline (HavyAssistant).

Shallow embedding of the endpointing, calibration and session-control logic
from `src/services/speech_recognition.py`, `src/services/wake_word.py` and
`src/services/assistant_controller.py`.

Modelling conventions:
* Loudness values (RMS) are rationals.  The Python code computes
  `rms = sqrt(mean(int16**2)) / 32768` from the raw frame; since a square
  root is irrational in general, the RMS of a frame is passed into the
  embedded functions as a value alongside the frame's samples.  All further
  use of the RMS in the source is through order comparisons and means,
  which the embedding reproduces exactly.
* Callback invocations (`audio_level_callback`, `speech_recognized_callback`,
  `noise_floor_callback`, `_emit(...)`, thread spawns for transcription and
  LLM queries) are modelled as typed events appended to an event list in
  emission order.  Pure log statements (`logger.info` etc.) are not events:
  they are not delivered to any registered observer.
* `threading.Timer` recording timeouts are modelled by a boolean
  `timer_armed` plus an explicit `timeout_handler` step function.
-/

/-- Session states of the controller: the `AssistantState` enum in
`src/services/assistant_controller.py`. -/
inductive AssistantState
  | stopped
  | initializing
  | listening_wake_word
  | recording_command
  | processing_llm
  | speaking
  | error
deriving DecidableEq, Repr

/-- Observable events: callback invocations and worker spawns, in emission
order.  `audioLevel` is `audio_level_callback(rms, status)`;
`speechRecognized` is `speech_recognized_callback(text)`;
`noiseFloorCalibrated` is `noise_floor_callback(value)`;
`transcriptionStarted` is the spawn of the `_transcribe` worker thread with
the finished utterance buffer; `stateChanged` is `_emit('on_state_changed')`;
`llmRequested` is the spawn of the worker thread running
`gemini_service.send_query(query)`; `thresholdUpdated` is
`_emit('on_threshold_updated')`; `errorEvent` is `_emit('on_error')`;
`wakeWordDetected` is `wake_word_callback()`. -/
inductive Ev
  | audioLevel (rms : ℚ) (status : String)
  | speechRecognized (text : String)
  | noiseFloorCalibrated (value : ℚ)
  | transcriptionStarted (samples : List ℤ)
  | wakeWordDetected
  | stateChanged (s : AssistantState)
  | llmRequested (query : String)
  | thresholdUpdated (value : ℚ)
  | errorEvent (message : String)
deriving DecidableEq

namespace SpeechRecognitionService

/-- Mutable state of `SpeechRecognitionService`
(`src/services/speech_recognition.py`).  `audio_buffer` holds int16 samples;
`timer_armed` tracks whether the 60 s guard `recording_timer` is pending.
The thresholds `SILENT_FRAMES_TO_STOP` and `MIN_SOUND_FRAMES` are read from
configuration in `__init__` and never mutated afterwards. -/
structure State where
  audio_buffer : List ℤ
  is_recording : Bool
  sample_rate : ℕ
  sensitivity : ℤ
  noise_floor : ℚ
  sensitivity_multiplier : ℚ
  silent_frames_count : ℕ
  sound_frames_count : ℕ
  calibration_samples : List ℚ
  is_calibrating : Bool
  SILENT_FRAMES_TO_STOP : ℕ
  MIN_SOUND_FRAMES : ℕ
  timer_armed : Bool

/-- `__init__` with the configuration defaults:
`sample_rate` 16000, `sensitivity` 5, `noise_floor = 0.01`,
`sensitivity_multiplier = 2.0`, `silent_frames_to_stop` 15,
`min_sound_frames` 3. -/
def init : State :=
  { audio_buffer := []
    is_recording := false
    sample_rate := 16000
    sensitivity := 5
    noise_floor := 1/100
    sensitivity_multiplier := 2
    silent_frames_count := 0
    sound_frames_count := 0
    calibration_samples := []
    is_calibrating := false
    SILENT_FRAMES_TO_STOP := 15
    MIN_SOUND_FRAMES := 3
    timer_armed := false }

/-- `get_voice_threshold`: `noise_floor * sensitivity_multiplier`. -/
def get_voice_threshold (st : State) : ℚ :=
  st.noise_floor * st.sensitivity_multiplier

/-- `update_sensitivity(level)`: stores the level as given and sets
`sensitivity_multiplier = max((11 - level) * 0.3, 0.5)`.  The source
performs no clamping or validation of `level`. -/
def update_sensitivity (st : State) (level : ℤ) : State :=
  { st with
    sensitivity := level
    sensitivity_multiplier := max (((11 - level : ℤ) : ℚ) * (3/10)) (1/2) }

/-- `start_recording`: sets `is_recording`, clears the utterance buffer and
both frame counters, (re)arms the 60 s guard timer. -/
def start_recording (st : State) : State :=
  { st with
    is_recording := true
    audio_buffer := []
    silent_frames_count := 0
    sound_frames_count := 0
    timer_armed := true }

/-- `_recognize_speech`: clears `is_recording`, cancels the guard timer;
if the buffer holds fewer than `sample_rate` samples (under one second) it
reports the silence sentinel `"[тишина]"` without invoking transcription
(and — as in the source — without clearing the buffer on this path);
otherwise it hands the buffer to the `_transcribe` worker (which divides
each sample by 32768 to float) and clears the buffer. -/
def recognize_speech (st : State) : State × List Ev :=
  let st1 := { st with is_recording := false, timer_armed := false }
  if st1.audio_buffer.length < st1.sample_rate then
    (st1, [Ev.speechRecognized "[тишина]"])
  else
    ({ st1 with audio_buffer := [] }, [Ev.transcriptionStarted st1.audio_buffer])

/-- `_timeout_handler`: if still recording, finalize via `_recognize_speech`. -/
def timeout_handler (st : State) : State × List Ev :=
  if st.is_recording then recognize_speech st else (st, [])

/-- `process_audio(audio_data)` for one frame.  `samples` are the frame's
int16 samples and `rms` its loudness (see the module comment).  While
calibrating, the sample is appended to the calibration accumulator.
Otherwise, when recording: a frame with `rms > threshold` is voice — the
sound counter is bumped, the silence counter reset, the samples appended and
the guard timer re-armed; a non-voice frame is discarded while fewer than
`MIN_SOUND_FRAMES` voice frames have been seen, and otherwise appended with
the silence counter bumped, finalizing via `_recognize_speech` once
`SILENT_FRAMES_TO_STOP` consecutive silent frames accumulate. -/
def process_audio (st : State) (samples : List ℤ) (rms : ℚ) : State × List Ev :=
  if st.is_calibrating then
    let st1 := { st with calibration_samples := st.calibration_samples ++ [rms] }
    let count := st1.calibration_samples.length
    (st1, [Ev.audioLevel rms s!"Калибровка {count}"])
  else if st.is_recording = false then
    (st, [])
  else
    let threshold := get_voice_threshold st
    let status : String :=
      if rms < st.noise_floor then "Тишина" else if rms < threshold then "Шум" else "ГОЛОС"
    let levelEv : List Ev := [Ev.audioLevel rms status]
    if threshold < rms then
      ({ st with
          sound_frames_count := st.sound_frames_count + 1
          silent_frames_count := 0
          audio_buffer := st.audio_buffer ++ samples
          timer_armed := true }, levelEv)
    else if st.MIN_SOUND_FRAMES ≤ st.sound_frames_count then
      let st1 := { st with
          silent_frames_count := st.silent_frames_count + 1
          audio_buffer := st.audio_buffer ++ samples }
      if st1.SILENT_FRAMES_TO_STOP ≤ st1.silent_frames_count then
        let r := recognize_speech st1
        (r.1, levelEv ++ r.2)
      else
        (st1, levelEv)
    else
      (st, levelEv)

/-- One step of delivering a frame stream: thread the state and accumulate
emitted events. -/
def feedStep (acc : State × List Ev) (f : List ℤ × ℚ) : State × List Ev :=
  let r := process_audio acc.1 f.1 f.2
  (r.1, acc.2 ++ r.2)

/-- Deliver a list of frames (samples, rms) to `process_audio` in order. -/
def feed (st : State) (frames : List (List ℤ × ℚ)) : State × List Ev :=
  frames.foldl feedStep (st, [])

/-- `calibrate_noise_floor(duration)`: enters calibration mode with a fresh
accumulator, then the frame-delivery path feeds it (the frames delivered
during the bounded wait are the `frames` argument); afterwards, if any
samples were collected, `noise_floor` is set to their arithmetic mean
(`np.mean`) and the noise-floor callback fires; with zero samples the
failure is logged only.  Both paths leave calibration mode and clear the
accumulator. -/
def calibrate_noise_floor (st : State) (frames : List (List ℤ × ℚ)) :
    State × List Ev :=
  let r := feed { st with is_calibrating := true, calibration_samples := [] } frames
  let st1 := r.1
  if st1.calibration_samples = [] then
    ({ st1 with is_calibrating := false, calibration_samples := [] }, r.2)
  else
    let nf := st1.calibration_samples.sum / (st1.calibration_samples.length : ℚ)
    ({ st1 with noise_floor := nf, is_calibrating := false, calibration_samples := [] },
      r.2 ++ [Ev.noiseFloorCalibrated nf])

/-- `stop()`: clears recording and calibration flags, the utterance buffer,
the calibration accumulator and both counters, and cancels the guard timer. -/
def stop (st : State) : State :=
  { st with
    is_recording := false
    is_calibrating := false
    audio_buffer := []
    calibration_samples := []
    silent_frames_count := 0
    sound_frames_count := 0
    timer_armed := false }

end SpeechRecognitionService

namespace WakeWordService

/-- Mutable state of `WakeWordService` (`src/services/wake_word.py`).
`has_recognizer` is whether `self.recognizer` is set (initialization done);
the Vosk model itself is an external black box.  `wake_word` is stored
already lowercased, as `__init__`/`initialize` apply `.lower()`. -/
structure State where
  has_recognizer : Bool
  is_recording : Bool
  wake_word : String

/-- `__init__` with the configuration default keyword. -/
def init : State :=
  { has_recognizer := false
    is_recording := false
    wake_word := "привет ассистент" }

/-- Python `str.lower()` on one character, for the alphabets this system
uses (ASCII and Russian Cyrillic, including Ё). -/
def pyLowerChar (c : Char) : Char :=
  if 'A' ≤ c ∧ c ≤ 'Z' then Char.ofNat (c.toNat + 32)
  else if 'А' ≤ c ∧ c ≤ 'Я' then Char.ofNat (c.toNat + 32)
  else if c = 'Ё' then 'ё'
  else c

/-- Python `str.lower()` (restricted as in `pyLowerChar`). -/
def pyLower (s : String) : String := ⟨s.data.map pyLowerChar⟩

/-- Does `needle` occur at the head of `hay`? -/
def leadMatch : List Char → List Char → Bool
  | _, [] => true
  | [], _ :: _ => false
  | a :: as, b :: bs => a == b && leadMatch as bs

/-- Python substring test `needle in hay` (first argument: haystack). -/
def strContains : List Char → List Char → Bool
  | [], needle => leadMatch [] needle
  | a :: as, needle => leadMatch (a :: as) needle || strContains as needle

/-- `_check_wake_word` applied to the text decoded from the recognizer's
JSON (`result.get('text') or result.get('partial', '')`): on a non-empty
text containing the wake word (case-insensitively), set `is_recording`,
fire the detection callback and reset the recognizer. -/
def check_wake_word (st : State) (text : String) : State × List Ev :=
  if text ≠ "" ∧ strContains (pyLower text).data st.wake_word.data = true then
    ({ st with is_recording := true }, [Ev.wakeWordDetected])
  else
    (st, [])

/-- `_get_audio_status(rms)`. -/
def get_audio_status (rms : ℚ) : String :=
  if rms < 1/50 then "Тишина" else if rms < 1/20 then "Шум" else "Голос"

/-- `process_audio(audio_data)` for one frame.  `rms` is the frame's
loudness and `transcript` the text the black-box Vosk recognizer reports
for the stream after this frame (final or partial result — both flow into
`_check_wake_word`).  When the recognizer is absent or `is_recording` is
set, the method returns at once: no level event, no recognition. -/
def process_audio (st : State) (rms : ℚ) (transcript : String) :
    State × List Ev :=
  if st.has_recognizer = false ∨ st.is_recording = true then
    (st, [])
  else
    let r := check_wake_word st transcript
    (r.1, Ev.audioLevel rms (get_audio_status rms) :: r.2)

/-- `stop()`: clears `is_recording` (and resets the black-box recognizer),
returning to wake-word detection. -/
def stop (st : State) : State :=
  { st with is_recording := false }

end WakeWordService

/-- Which component the controller's frame-delivery path hands an incoming
frame to. -/
inductive Recipient
  | endpointer
  | phraseSpotter
  | noRecipient
deriving DecidableEq, Repr

namespace VoiceAssistantController

/-- State owned by `VoiceAssistantController`
(`src/services/assistant_controller.py`) together with its two embedded
audio services.  The LLM, TTS and capture collaborators are external. -/
structure State where
  state : AssistantState
  sr : SpeechRecognitionService.State
  ww : WakeWordService.State
  sensitivity : ℤ

/-- `__init__`: starts `STOPPED` with freshly constructed services and the
configuration default sensitivity 5. -/
def init : State :=
  { state := AssistantState.stopped
    sr := SpeechRecognitionService.init
    ww := WakeWordService.init
    sensitivity := 5 }

/-- The routing decision of `_on_audio_data`: the calibration flag of the
speech service is consulted first, then the session state. -/
def frame_recipient (c : State) : Recipient :=
  if c.sr.is_calibrating then Recipient.endpointer
  else if c.state = AssistantState.listening_wake_word then Recipient.phraseSpotter
  else if c.state = AssistantState.recording_command then Recipient.endpointer
  else Recipient.noRecipient

/-- The same routing decision as a function of the pair (calibration flag,
session state) only. -/
def routing (calibrating : Bool) (s : AssistantState) : Recipient :=
  if calibrating then Recipient.endpointer
  else if s = AssistantState.listening_wake_word then Recipient.phraseSpotter
  else if s = AssistantState.recording_command then Recipient.endpointer
  else Recipient.noRecipient

/-- `_on_audio_data(audio_data)`: while the speech service is calibrating,
the frame goes to it; otherwise in `LISTENING_WAKE_WORD` it goes to the
wake-word service and in `RECORDING_COMMAND` to the speech service; in any
other state the frame is dropped.  `transcript` is the black-box wake-word
recognizer's output for the stream after this frame (used only when the
frame reaches the wake-word service). -/
def on_audio_data (c : State) (samples : List ℤ) (rms : ℚ)
    (transcript : String) : State × List Ev :=
  if c.sr.is_calibrating then
    let r := SpeechRecognitionService.process_audio c.sr samples rms
    ({ c with sr := r.1 }, r.2)
  else if c.state = AssistantState.listening_wake_word then
    let r := WakeWordService.process_audio c.ww rms transcript
    ({ c with ww := r.1 }, r.2)
  else if c.state = AssistantState.recording_command then
    let r := SpeechRecognitionService.process_audio c.sr samples rms
    ({ c with sr := r.1 }, r.2)
  else
    (c, [])

/-- The try/except boundary of `_on_audio_data`: the body (which may raise)
is run; an exception is caught, logged via `logger.error` — which is not a
callback — and the method returns normally with the state as it was.  No
`on_error` (or any other) event is emitted on the exception path. -/
def on_audio_data_guarded (c : State)
    (body : State → Except String (State × List Ev)) : State × List Ev :=
  match body c with
  | Except.ok r => r
  | Except.error _ => (c, [])

/-- `_send_to_llm(query)`: transitions to `PROCESSING_LLM` and spawns the
worker thread that performs `gemini_service.send_query(query)`. -/
def send_to_llm (c : State) (query : String) : State × List Ev :=
  ({ c with state := AssistantState.processing_llm },
   [Ev.stateChanged AssistantState.processing_llm, Ev.llmRequested query])

/-- `_on_speech_recognized(text)`: for text that is not the silence or
error sentinel, emit `on_speech_recognized` and call `_send_to_llm`; then
— unconditionally, in the same callback — set the state to
`LISTENING_WAKE_WORD` and call `wake_word_service.stop()`. -/
def on_speech_recognized (c : State) (text : String) : State × List Ev :=
  let r :=
    if text = "[тишина]" ∨ text = "[ошибка]" then
      (c, ([] : List Ev))
    else
      let r1 := send_to_llm c text
      (r1.1, Ev.speechRecognized text :: r1.2)
  ({ r.1 with
      state := AssistantState.listening_wake_word
      ww := WakeWordService.stop r.1.ww },
   r.2 ++ [Ev.stateChanged AssistantState.listening_wake_word])

/-- `update_sensitivity(level)` on the controller: records the level,
forwards it (unclamped) to the speech service and emits the
threshold-updated event with the recomputed voice threshold. -/
def update_sensitivity (c : State) (level : ℤ) : State × List Ev :=
  let sr1 := SpeechRecognitionService.update_sensitivity c.sr level
  ({ c with sensitivity := level, sr := sr1 },
   [Ev.thresholdUpdated (SpeechRecognitionService.get_voice_threshold sr1)])

end VoiceAssistantController

/-! Concrete instances used by individual claims. -/

/-- Endpointer state at the start of a command capture with the default
calibration values: noise floor 0.01 and multiplier 2, so the voice
threshold is 0.02 — loudness 0.5 classifies as voice, 0.01 does not. -/
def c3Start : SpeechRecognitionService.State :=
  SpeechRecognitionService.start_recording SpeechRecognitionService.init

/-- The scripted loudness sequence `[0.01]*5 + [0.5]*4 + [0.01]*20`.  To
make the buffer contents traceable, pre-speech quiet frames carry sample 9,
voice frames sample 1 and trailing frames sample 2. -/
def c3Script : List (List ℤ × ℚ) :=
  List.replicate 5 ([9], 1/100) ++ List.replicate 4 ([1], 1/2) ++
    List.replicate 20 ([2], 1/100)

/-- Two frames with loudness samples 0.01 and 0.03 delivered during a
calibration window. -/
def c4Frames : List (List ℤ × ℚ) := [([0], 1/100), ([0], 3/100)]

/-- The endpointer state after calibrating over a single digitally-silent
frame (loudness 0): the computed mean noise floor is 0. -/
def c5ZeroState : SpeechRecognitionService.State :=
  (SpeechRecognitionService.calibrate_noise_floor SpeechRecognitionService.init
    [([0], 0)]).1

/-- A mid-capture endpointer state whose utterance buffer holds exactly one
second of samples (16000 at the default rate). -/
def c8LongState : SpeechRecognitionService.State :=
  { SpeechRecognitionService.init with
    is_recording := true
    audio_buffer := List.replicate 16000 0
    timer_armed := true }

/-- Controller capturing a command (state entered by `_on_wake_word_detected`). -/
def c1Pre : VoiceAssistantController.State :=
  { VoiceAssistantController.init with state := AssistantState.recording_command }

/-- Controller armed for the wake word while the speech service calibrates
in the background. -/
def c2CalibListening : VoiceAssistantController.State :=
  { VoiceAssistantController.init with
    state := AssistantState.listening_wake_word
    sr := { SpeechRecognitionService.init with is_calibrating := true } }

/-- Controller armed for the wake word, not calibrating. -/
def c2PlainListening : VoiceAssistantController.State :=
  { VoiceAssistantController.init with
    state := AssistantState.listening_wake_word }

/-- A frame-delivery body that raises (models any exception escaping a
service call inside `_on_audio_data`). -/
def c9FailingBody (msg : String) :
    VoiceAssistantController.State →
      Except String (VoiceAssistantController.State × List Ev) :=
  fun _ => Except.error msg

/-- Wake-word service muted after a detection: recognizer loaded and
`is_recording` set by `_check_wake_word`. -/
def c10Muted : WakeWordService.State :=
  { WakeWordService.init with has_recognizer := true, is_recording := true }

/-- While the calibration flag is set, each delivered frame only appends its
loudness sample to the calibration accumulator; every other field of the
endpointer state is untouched. -/
theorem foldl_feedStep_calibrating (frames : List (List ℤ × ℚ)) :
    ∀ (st : SpeechRecognitionService.State) (evs : List Ev),
      st.is_calibrating = true →
      (frames.foldl SpeechRecognitionService.feedStep (st, evs)).1
        = { st with calibration_samples :=
              st.calibration_samples ++ frames.map Prod.snd } := by
  induction frames with
  | nil =>
      intro st evs h
      simp
  | cons f rest ih =>
      intro st evs h
      simp only [List.foldl_cons, SpeechRecognitionService.feedStep,
        SpeechRecognitionService.process_audio, h, if_true]
      rw [ih _ _ (by simp [h])]
      simp

/-- C4: `calibrate_noise_floor` with at least one collected Loudness Sample
sets the Noise Floor to exactly the arithmetic mean of the collected samples
and emits the noise-floor-updated event; with zero collected samples it
leaves the Noise Floor unchanged and emits no event (the failure is logged
as a diagnostic only). -/
theorem C4_calibration_mean (st : SpeechRecognitionService.State)
    (frames : List (List ℤ × ℚ)) :
    (frames ≠ [] →
        (SpeechRecognitionService.calibrate_noise_floor st frames).1.noise_floor
          = (frames.map Prod.snd).sum / ((frames.map Prod.snd).length : ℚ)
      ∧ Ev.noiseFloorCalibrated
            ((frames.map Prod.snd).sum / ((frames.map Prod.snd).length : ℚ))
          ∈ (SpeechRecognitionService.calibrate_noise_floor st frames).2)
  ∧ (frames = [] →
        (SpeechRecognitionService.calibrate_noise_floor st frames).1.noise_floor
          = st.noise_floor
      ∧ (SpeechRecognitionService.calibrate_noise_floor st frames).2 = []) := by
  have hfeed := foldl_feedStep_calibrating frames
    { st with is_calibrating := true, calibration_samples := [] } [] rfl
  constructor
  · intro hne
    simp only [SpeechRecognitionService.calibrate_noise_floor,
      SpeechRecognitionService.feed, hfeed]
    simp [List.map_eq_nil_iff, hne]
  · intro he
    subst he
    simp [SpeechRecognitionService.calibrate_noise_floor,
      SpeechRecognitionService.feed]

/-- Witness for C4 at a concrete two-sample calibration window. -/
theorem C4_calibration_mean_witness :
    c4Frames ≠ []
  ∧ (SpeechRecognitionService.calibrate_noise_floor
        SpeechRecognitionService.init c4Frames).1.noise_floor
      = (c4Frames.map Prod.snd).sum / ((c4Frames.map Prod.snd).length : ℚ) :=
  ⟨by simp [c4Frames],
   ((C4_calibration_mean SpeechRecognitionService.init c4Frames).1
      (by simp [c4Frames])).1⟩

/-- C5 counterexample: in the state reached by calibrating over one
digitally-silent frame the Noise Floor is 0, and `get_voice_threshold`
then returns 0 — not strictly positive.  The claim, which asserts a
strictly positive threshold whenever the Noise Floor is 0, fails there. -/
theorem C5_counterexample :
    c5ZeroState.noise_floor = 0
  ∧ ¬ (0 < SpeechRecognitionService.get_voice_threshold c5ZeroState) := by
  norm_num [c5ZeroState, SpeechRecognitionService.calibrate_noise_floor,
    SpeechRecognitionService.feed, SpeechRecognitionService.feedStep,
    SpeechRecognitionService.process_audio, SpeechRecognitionService.init,
    SpeechRecognitionService.get_voice_threshold]

/-- C5 (amended): before any calibration the Noise Floor holds the
conservative default 0.01, so for every sensitivity setting — in range or
not — the computed Voice Threshold is strictly positive. -/
theorem C5_uncalibrated_threshold_positive (level : ℤ) :
    0 < SpeechRecognitionService.get_voice_threshold
        (SpeechRecognitionService.update_sensitivity
          SpeechRecognitionService.init level) :=
  mul_pos
    (by norm_num [SpeechRecognitionService.update_sensitivity,
      SpeechRecognitionService.init])
    (lt_of_lt_of_le (by norm_num) (le_max_right _ _))

/-- C6: for sensitivity levels `1 ≤ l ≤ l' ≤ 10` the Threshold Multiplier
computed by `update_sensitivity` equals `max((11 - level) * 0.3, 0.5)`, is
monotonically non-increasing in the level, and never drops below the
floor 0.5. -/
theorem C6_multiplier_formula_monotone
    (st st' : SpeechRecognitionService.State) (l l' : ℤ)
    (h1 : 1 ≤ l) (h2 : l ≤ l') (h3 : l' ≤ 10) :
    (SpeechRecognitionService.update_sensitivity st l).sensitivity_multiplier
        = max (((11 - l : ℤ) : ℚ) * (3/10)) (1/2)
  ∧ (SpeechRecognitionService.update_sensitivity st' l').sensitivity_multiplier
      ≤ (SpeechRecognitionService.update_sensitivity st l).sensitivity_multiplier
  ∧ (1/2 : ℚ)
      ≤ (SpeechRecognitionService.update_sensitivity st l).sensitivity_multiplier := by
  refine ⟨rfl, ?_, le_max_right _ _⟩
  show max (((11 - l' : ℤ) : ℚ) * (3/10)) (1/2)
      ≤ max (((11 - l : ℤ) : ℚ) * (3/10)) (1/2)
  apply max_le_max _ le_rfl
  have hle : ((11 - l' : ℤ) : ℚ) ≤ ((11 - l : ℤ) : ℚ) := by
    have h2q : (l : ℚ) ≤ (l' : ℚ) := by exact_mod_cast h2
    push_cast
    linarith
  exact mul_le_mul_of_nonneg_right hle (by norm_num)

/-- Witness for C6 at levels 2 ≤ 9. -/
theorem C6_multiplier_witness :
    ((1:ℤ) ≤ 2 ∧ (2:ℤ) ≤ 9 ∧ (9:ℤ) ≤ 10)
  ∧ (SpeechRecognitionService.update_sensitivity
        SpeechRecognitionService.init 9).sensitivity_multiplier
      ≤ (SpeechRecognitionService.update_sensitivity
          SpeechRecognitionService.init 2).sensitivity_multiplier :=
  ⟨⟨by norm_num, by norm_num, by norm_num⟩,
   (C6_multiplier_formula_monotone SpeechRecognitionService.init
      SpeechRecognitionService.init 2 9 (by norm_num) (by norm_num)
      (by norm_num)).2.1⟩

/-- C7 counterexample: `update_sensitivity` does not clamp.  At the
out-of-range level 0 the stored sensitivity is 0 (not the nearest in-range
level 1) and the multiplier is `max(11*0.3, 0.5) = 3.3`, while level 1
yields 3.0 — the results differ, refuting the claim. -/
theorem C7_counterexample :
    (VoiceAssistantController.update_sensitivity
        VoiceAssistantController.init 0).1.sr.sensitivity_multiplier = 33/10
  ∧ (VoiceAssistantController.update_sensitivity
        VoiceAssistantController.init 1).1.sr.sensitivity_multiplier = 3
  ∧ (VoiceAssistantController.update_sensitivity
        VoiceAssistantController.init 0).1.sr.sensitivity_multiplier
      ≠ (VoiceAssistantController.update_sensitivity
          VoiceAssistantController.init 1).1.sr.sensitivity_multiplier
  ∧ (VoiceAssistantController.update_sensitivity
        VoiceAssistantController.init 0).1.sr.sensitivity ≠ 1 := by
  norm_num [VoiceAssistantController.update_sensitivity,
    VoiceAssistantController.init, SpeechRecognitionService.update_sensitivity,
    SpeechRecognitionService.init, max_def]

/-- C7 (amended): the controller's `update_sensitivity` stores the level
exactly as given — no clamping or validation — forwards it unchanged to the
speech service, computes the multiplier by the raw formula
`max((11 - level) * 0.3, 0.5)` for every integer level, and emits the
threshold-updated event with the recomputed threshold. -/
theorem C7_no_clamping (c : VoiceAssistantController.State) (level : ℤ) :
    (VoiceAssistantController.update_sensitivity c level).1.sensitivity = level
  ∧ (VoiceAssistantController.update_sensitivity c level).1.sr.sensitivity = level
  ∧ (VoiceAssistantController.update_sensitivity c level).1.sr.sensitivity_multiplier
      = max (((11 - level : ℤ) : ℚ) * (3/10)) (1/2)
  ∧ (VoiceAssistantController.update_sensitivity c level).2
      = [Ev.thresholdUpdated (SpeechRecognitionService.get_voice_threshold
          (VoiceAssistantController.update_sensitivity c level).1.sr)] :=
  ⟨rfl, rfl, rfl, rfl⟩

/-- C9 counterexample: a failure caught at the `_on_audio_data` boundary
produces no event at all — in particular no error event — refuting the
claim that each caught failure is converted into an error event. -/
theorem C9_counterexample :
    VoiceAssistantController.on_audio_data_guarded
        VoiceAssistantController.init (c9FailingBody "boom")
      = (VoiceAssistantController.init, [])
  ∧ Ev.errorEvent "boom"
      ∉ (VoiceAssistantController.on_audio_data_guarded
          VoiceAssistantController.init (c9FailingBody "boom")).2 := by
  constructor
  · rfl
  · simp [VoiceAssistantController.on_audio_data_guarded, c9FailingBody]

/-- C9 (amended): no exception raised inside the frame-delivery path
propagates out — the boundary returns normally, passing successful results
through and, on an exception, leaving the state untouched — but the caught
failure is only logged: no error event (nor any other event) is emitted. -/
theorem C9_boundary (c : VoiceAssistantController.State)
    (body : VoiceAssistantController.State →
      Except String (VoiceAssistantController.State × List Ev)) :
    (∀ r, body c = Except.ok r →
        VoiceAssistantController.on_audio_data_guarded c body = r)
  ∧ (∀ e, body c = Except.error e →
        VoiceAssistantController.on_audio_data_guarded c body = (c, [])
      ∧ ∀ m, Ev.errorEvent m
          ∉ (VoiceAssistantController.on_audio_data_guarded c body).2) := by
  constructor
  · intro r h
    simp [VoiceAssistantController.on_audio_data_guarded, h]
  · intro e h
    simp [VoiceAssistantController.on_audio_data_guarded, h]

/-- Witness for C9 at a concrete failing body. -/
theorem C9_boundary_witness :
    c9FailingBody "err" VoiceAssistantController.init = Except.error "err"
  ∧ VoiceAssistantController.on_audio_data_guarded
        VoiceAssistantController.init (c9FailingBody "err")
      = (VoiceAssistantController.init, []) :=
  ⟨rfl, ((C9_boundary VoiceAssistantController.init
      (c9FailingBody "err")).2 "err" rfl).1⟩

/-- C10: while `is_recording` is set (as done by `_check_wake_word` on a
detection), `process_audio` returns immediately — same state, no events, so
no level report and no further detection; any call that does fire the
detection callback leaves `is_recording` set; and `stop()` resets it. -/
theorem C10_muted_after_detection (st : WakeWordService.State) (rms : ℚ)
    (transcript : String) :
    (st.is_recording = true →
        WakeWordService.process_audio st rms transcript = (st, []))
  ∧ (Ev.wakeWordDetected ∈ (WakeWordService.process_audio st rms transcript).2 →
        (WakeWordService.process_audio st rms transcript).1.is_recording = true)
  ∧ (WakeWordService.stop st).is_recording = false := by
  refine ⟨?_, ?_, rfl⟩
  · intro h
    simp [WakeWordService.process_audio, h]
  · intro hmem
    by_cases hg : st.has_recognizer = false ∨ st.is_recording = true
    · simp [WakeWordService.process_audio, hg] at hmem
    · by_cases hc : transcript ≠ "" ∧ WakeWordService.strContains
          (WakeWordService.pyLower transcript).data st.wake_word.data = true
      · simp [WakeWordService.process_audio, WakeWordService.check_wake_word,
          hg, hc]
      · simp [WakeWordService.process_audio, WakeWordService.check_wake_word,
          hg, hc] at hmem

/-- Witness for C10: the muted service ignores a frame even when the black
box reports the wake phrase again. -/
theorem C10_muted_witness :
    c10Muted.is_recording = true
  ∧ WakeWordService.process_audio c10Muted (1/2) "привет ассистент кто там"
      = (c10Muted, []) :=
  ⟨rfl, (C10_muted_after_detection c10Muted (1/2)
      "привет ассистент кто там").1 rfl⟩

/-- C2 counterexample: two controller states with the same Session State
(`LISTENING_WAKE_WORD`) route frames to different recipients depending on
the speech service's `is_calibrating` flag — so the routing decision of
`_on_audio_data` is not a pure function of the Session State alone. -/
theorem C2_counterexample :
    c2CalibListening.state = c2PlainListening.state
  ∧ VoiceAssistantController.frame_recipient c2CalibListening
      = Recipient.endpointer
  ∧ VoiceAssistantController.frame_recipient c2PlainListening
      = Recipient.phraseSpotter
  ∧ VoiceAssistantController.frame_recipient c2CalibListening
      ≠ VoiceAssistantController.frame_recipient c2PlainListening := by
  refine ⟨rfl, rfl, rfl, ?_⟩
  intro h
  simp [VoiceAssistantController.frame_recipient, c2CalibListening,
    c2PlainListening, SpeechRecognitionService.init,
    VoiceAssistantController.init] at h

/-- C2 (amended): the routing decision is a pure function of the pair
(speech-service calibration flag, Session State): calibrating frames go to
the endpointer regardless of state; otherwise `RECORDING_COMMAND` implies
the endpointer, `LISTENING_WAKE_WORD` implies the phrase spotter, and every
other state has no recipient.  Exactly one recipient receives the frame:
dispatch to one service leaves the other untouched, and with no recipient
the frame is dropped with no effect. -/
theorem C2_routing (c : VoiceAssistantController.State) (samples : List ℤ)
    (rms : ℚ) (transcript : String) :
    VoiceAssistantController.frame_recipient c
        = VoiceAssistantController.routing c.sr.is_calibrating c.state
  ∧ (c.state = AssistantState.recording_command →
        VoiceAssistantController.frame_recipient c = Recipient.endpointer)
  ∧ (c.sr.is_calibrating = false →
      c.state = AssistantState.listening_wake_word →
        VoiceAssistantController.frame_recipient c = Recipient.phraseSpotter)
  ∧ (VoiceAssistantController.frame_recipient c = Recipient.endpointer →
        (VoiceAssistantController.on_audio_data c samples rms transcript).1.ww
          = c.ww)
  ∧ (VoiceAssistantController.frame_recipient c = Recipient.phraseSpotter →
        (VoiceAssistantController.on_audio_data c samples rms transcript).1.sr
          = c.sr)
  ∧ (VoiceAssistantController.frame_recipient c = Recipient.noRecipient →
        VoiceAssistantController.on_audio_data c samples rms transcript
          = (c, [])) := by
  by_cases hcal : c.sr.is_calibrating = true <;>
    by_cases h1 : c.state = AssistantState.listening_wake_word <;>
      by_cases h2 : c.state = AssistantState.recording_command <;>
        simp_all [VoiceAssistantController.frame_recipient,
          VoiceAssistantController.routing,
          VoiceAssistantController.on_audio_data]

/-- Witness for C2 (amended) in the armed, non-calibrating state. -/
theorem C2_routing_witness :
    c2PlainListening.sr.is_calibrating = false
  ∧ c2PlainListening.state = AssistantState.listening_wake_word
  ∧ VoiceAssistantController.frame_recipient c2PlainListening
      = Recipient.phraseSpotter :=
  ⟨rfl, rfl, (C2_routing c2PlainListening [] 0 "").2.2.1 rfl rfl⟩

/-- C1 counterexample: a finalized utterance with non-sentinel text,
delivered while capturing a command, does invoke the language model
asynchronously and does pass through `PROCESSING_LLM` — but the same
callback then immediately sets `LISTENING_WAKE_WORD`, so the controller is
not in `PROCESSING_LLM` when the callback returns, long before the model
call completes. -/
theorem C1_counterexample :
    c1Pre.state = AssistantState.recording_command
  ∧ Ev.llmRequested "включи свет"
      ∈ (VoiceAssistantController.on_speech_recognized c1Pre "включи свет").2
  ∧ Ev.stateChanged AssistantState.processing_llm
      ∈ (VoiceAssistantController.on_speech_recognized c1Pre "включи свет").2
  ∧ (VoiceAssistantController.on_speech_recognized c1Pre "включи свет").1.state
      = AssistantState.listening_wake_word
  ∧ (VoiceAssistantController.on_speech_recognized c1Pre "включи свет").1.state
      ≠ AssistantState.processing_llm := by
  simp [VoiceAssistantController.on_speech_recognized,
    VoiceAssistantController.send_to_llm, c1Pre, VoiceAssistantController.init]

/-- C1 (amended): on a finalized utterance delivered while capturing a
command, non-sentinel text leads to an asynchronous language-model
invocation and a transition through `PROCESSING_LLM`, after which — within
the same callback, before the model completes — the controller returns to
`LISTENING_WAKE_WORD`; sentinel text (`"[тишина]"`/`"[ошибка]"`) leads back
to `LISTENING_WAKE_WORD` directly, with no model invocation and no
transition other than to `LISTENING_WAKE_WORD`. -/
theorem C1_command_dispatch (c : VoiceAssistantController.State)
    (text : String) (h : c.state = AssistantState.recording_command) :
    ((text ≠ "[тишина]" ∧ text ≠ "[ошибка]") →
        Ev.stateChanged AssistantState.processing_llm
            ∈ (VoiceAssistantController.on_speech_recognized c text).2
      ∧ Ev.llmRequested text
            ∈ (VoiceAssistantController.on_speech_recognized c text).2
      ∧ (VoiceAssistantController.on_speech_recognized c text).1.state
            = AssistantState.listening_wake_word)
  ∧ ((text = "[тишина]" ∨ text = "[ошибка]") →
        (∀ q, Ev.llmRequested q
            ∉ (VoiceAssistantController.on_speech_recognized c text).2)
      ∧ (∀ s, Ev.stateChanged s
            ∈ (VoiceAssistantController.on_speech_recognized c text).2 →
              s = AssistantState.listening_wake_word)
      ∧ (VoiceAssistantController.on_speech_recognized c text).1.state
            = AssistantState.listening_wake_word) := by
  constructor
  · intro hne
    have hcond : ¬ (text = "[тишина]" ∨ text = "[ошибка]") := by
      rintro (h1 | h2)
      · exact hne.1 h1
      · exact hne.2 h2
    simp [VoiceAssistantController.on_speech_recognized,
      VoiceAssistantController.send_to_llm, hcond]
  · intro hor
    simp [VoiceAssistantController.on_speech_recognized, hor]

/-- Witness for C1 (amended) on concrete non-sentinel text. -/
theorem C1_command_dispatch_witness :
    c1Pre.state = AssistantState.recording_command
  ∧ ("свет" ≠ "[тишина]" ∧ "свет" ≠ "[ошибка]")
  ∧ (VoiceAssistantController.on_speech_recognized c1Pre "свет").1.state
      = AssistantState.listening_wake_word :=
  ⟨rfl, ⟨by decide, by decide⟩,
   ((C1_command_dispatch c1Pre "свет" rfl).1 ⟨by decide, by decide⟩).2.2⟩

set_option maxRecDepth 4096 in
/-- C8: every finalization leaves the utterance buffer empty before the
next capture attempt: `start_recording` begins each capture with an empty
buffer and zero counters; `_recognize_speech` ends recording, clears the
buffer outright on the transcription path, and on the short-buffer path
reports the silence sentinel without transcription; the 60 s timeout
finalizes through the same `_recognize_speech`; and `stop()` (abort)
empties the buffer as well. -/
theorem C8_buffer_reset (st : SpeechRecognitionService.State) :
    (SpeechRecognitionService.start_recording
        (SpeechRecognitionService.recognize_speech st).1).audio_buffer = []
  ∧ (SpeechRecognitionService.start_recording
        (SpeechRecognitionService.recognize_speech st).1).silent_frames_count = 0
  ∧ (SpeechRecognitionService.start_recording
        (SpeechRecognitionService.recognize_speech st).1).sound_frames_count = 0
  ∧ (SpeechRecognitionService.recognize_speech st).1.is_recording = false
  ∧ (st.audio_buffer.length < st.sample_rate →
        (SpeechRecognitionService.recognize_speech st).2
          = [Ev.speechRecognized "[тишина]"])
  ∧ (st.sample_rate ≤ st.audio_buffer.length →
        (SpeechRecognitionService.recognize_speech st).1.audio_buffer = [])
  ∧ (st.is_recording = true →
        SpeechRecognitionService.timeout_handler st
          = SpeechRecognitionService.recognize_speech st)
  ∧ (SpeechRecognitionService.stop st).audio_buffer = [] := by
  refine ⟨rfl, rfl, rfl, ?_, ?_, ?_, ?_, rfl⟩
  · by_cases hlen : st.audio_buffer.length < st.sample_rate <;>
      simp [SpeechRecognitionService.recognize_speech, hlen]
  · intro hlen
    simp [SpeechRecognitionService.recognize_speech, hlen]
  · intro hge
    have hnl : ¬ st.audio_buffer.length < st.sample_rate := not_lt.mpr hge
    simp [SpeechRecognitionService.recognize_speech, hnl]
  · intro h
    simp [SpeechRecognitionService.timeout_handler, h]

/-- Witness for C8 at a one-second buffer (the transcription path). -/
theorem C8_buffer_reset_witness :
    c8LongState.sample_rate ≤ c8LongState.audio_buffer.length
  ∧ (SpeechRecognitionService.recognize_speech c8LongState).1.audio_buffer
      = [] :=
  ⟨(List.length_replicate 16000 (0 : ℤ)).ge,
   (C8_buffer_reset c8LongState).2.2.2.2.2.1
     (List.length_replicate 16000 (0 : ℤ)).ge⟩

set_option maxHeartbeats 2000000 in
/-- C3: with recording started (not calibrating), `MIN_SOUND_FRAMES = 3`,
`SILENT_FRAMES_TO_STOP = 15`, noise floor 0.01 and multiplier 2 (threshold
0.02, so loudness 0.5 is voice and 0.01 is not), the scripted loudness
sequence `[0.01]*5 + [0.5]*4 + [0.01]*20` makes the endpointer: leave the
state untouched over the first 5 non-voice frames (nothing appended, no
counter moves); append the 4 voice frames; append the trailing silent
frames while counting them; still be recording after frame 23 (14 silent);
finalize exactly on frame 24 (the 15th consecutive silent frame), at which
point the buffer holds exactly the samples of those 4 + 15 = 19 frames;
and ignore the remaining frames after finalization.  (Voice frames carry
sample 1, trailing frames sample 2, discarded pre-speech frames sample 9.) -/
theorem C3_endpointer_script :
    (SpeechRecognitionService.feed c3Start (c3Script.take 5)).1 = c3Start
  ∧ (SpeechRecognitionService.feed c3Start (c3Script.take 9)).1.sound_frames_count = 4
  ∧ (SpeechRecognitionService.feed c3Start (c3Script.take 9)).1.audio_buffer
      = [1, 1, 1, 1]
  ∧ (SpeechRecognitionService.feed c3Start (c3Script.take 23)).1.is_recording = true
  ∧ (SpeechRecognitionService.feed c3Start (c3Script.take 23)).1.silent_frames_count = 14
  ∧ (SpeechRecognitionService.feed c3Start (c3Script.take 24)).1.is_recording = false
  ∧ (SpeechRecognitionService.feed c3Start (c3Script.take 24)).1.audio_buffer
      = [1, 1, 1, 1] ++ List.replicate 15 2
  ∧ (SpeechRecognitionService.feed c3Start (c3Script.take 24)).1.audio_buffer.length
      = 19
  ∧ (SpeechRecognitionService.feed c3Start c3Script).1
      = (SpeechRecognitionService.feed c3Start (c3Script.take 24)).1 := by
  norm_num [SpeechRecognitionService.feed, SpeechRecognitionService.feedStep,
    SpeechRecognitionService.process_audio,
    SpeechRecognitionService.recognize_speech,
    SpeechRecognitionService.get_voice_threshold,
    SpeechRecognitionService.start_recording, SpeechRecognitionService.init,
    c3Start, c3Script, List.replicate]
